import Mathlib

/-!
Verification of the NeuroOS asset-generator scripts.

The repository consists of two standalone Python scripts built on
Pillow (PIL): `src/scripts/generate_icon.py` and
`src/scripts/generate_installer_assets.py`.  Each script allocates
fixed-size raster canvases, draws a rectangle or polygon glyph, and
writes the result to hardcoded file paths.

This file gives a shallow embedding: a canvas is a structure holding
its size, PIL color mode and a pixel function; the Pillow drawing
primitives used by the scripts (`Image.new`, `ImageDraw.rectangle`,
`ImageDraw.rounded_rectangle`, `ImageDraw.polygon`) are modelled as
pure canvas transformers following Pillow's documented semantics
(rectangle bounds inclusive of both endpoints; polygon filled by the
even-odd rule).  File writes and console prints are modelled by a
`World` state carrying a file-system map and an ordered event log, so
that temporal claims about the scripts can be stated over the log.
-/

namespace NeuroOS

/-- A PIL color tuple: the list of channel values, 3 entries for an
RGB pixel and 4 entries for an RGBA pixel. -/
abbrev Color := List Nat

/-- An in-memory raster canvas: fixed pixel size, PIL mode string, and
the pixel content as a total function on coordinates (coordinates at
or beyond the size are clipped by the canvas and never observed). -/
@[ext]
structure Img where
  width : Nat
  height : Nat
  mode : String
  px : Nat → Nat → Color

namespace Image

/-- Models PIL `Image.new(mode, size, color)`: a fresh canvas of the
given size with every pixel set to the background color. -/
def new (mode : String) (size : Nat × Nat) (color : Color) : Img :=
  { width := size.1, height := size.2, mode := mode, px := fun _ _ => color }

end Image

namespace ImageDraw

/-- Models PIL `ImageDraw.rectangle([x0, y0, x1, y1], fill)`: per the
Pillow documentation the bounding box is inclusive of both endpoints,
so every pixel with x0 ≤ x ≤ x1 and y0 ≤ y ≤ y1 takes the fill
color. -/
def rectangle (im : Img) (x0 y0 x1 y1 : Nat) (fill : Color) : Img :=
  { im with
    px := fun x y =>
      if x0 ≤ x ∧ x ≤ x1 ∧ y0 ≤ y ∧ y ≤ y1 then fill else im.px x y }

/-- Membership in a closed disk of radius r centered at (cx, cy). -/
def inDisk (cx cy r x y : Int) : Prop :=
  (x - cx) * (x - cx) + (y - cy) * (y - cy) ≤ r * r

instance (cx cy r x y : Int) : Decidable (inDisk cx cy r x y) := by
  unfold inDisk
  infer_instance

/-- The region of PIL `ImageDraw.rounded_rectangle`: inside the
bounding box, and inside the quarter-disk of radius r at each of the
four corners. -/
def inRoundedRect (x0 y0 x1 y1 r x y : Int) : Prop :=
  x0 ≤ x ∧ x ≤ x1 ∧ y0 ≤ y ∧ y ≤ y1 ∧
  (x < x0 + r ∧ y < y0 + r → inDisk (x0 + r) (y0 + r) r x y) ∧
  (x1 - r < x ∧ y < y0 + r → inDisk (x1 - r) (y0 + r) r x y) ∧
  (x < x0 + r ∧ y1 - r < y → inDisk (x0 + r) (y1 - r) r x y) ∧
  (x1 - r < x ∧ y1 - r < y → inDisk (x1 - r) (y1 - r) r x y)

instance (x0 y0 x1 y1 r x y : Int) :
    Decidable (inRoundedRect x0 y0 x1 y1 r x y) := by
  unfold inRoundedRect
  infer_instance

/-- Models PIL `ImageDraw.rounded_rectangle([x0, y0, x1, y1], radius, fill)`:
pixels inside the rounded-rectangle region take the fill color. -/
def rounded_rectangle (im : Img) (x0 y0 x1 y1 r : Nat) (fill : Color) : Img :=
  { im with
    px := fun x y =>
      if inRoundedRect (Int.ofNat x0) (Int.ofNat y0) (Int.ofNat x1)
          (Int.ofNat y1) (Int.ofNat r) (Int.ofNat x) (Int.ofNat y)
      then fill else im.px x y }

/-- One edge test of the even-odd ray-casting rule at point (x, y):
whether the directed edge from a to b crosses the horizontal ray going
left from (x, y). -/
def edgeCrosses (a b : Int × Int) (x y : Int) : Bool :=
  if a.2 ≤ y ∧ y < b.2 then
    decide ((b.1 - a.1) * (y - a.2) - (b.2 - a.2) * (x - a.1) > 0)
  else if b.2 ≤ y ∧ y < a.2 then
    decide ((b.1 - a.1) * (y - a.2) - (b.2 - a.2) * (x - a.1) < 0)
  else
    false

/-- The edge list of a polygon given by its vertex list: consecutive
pairs, closing back from the last vertex to the first. -/
def polyEdges (ps : List (Int × Int)) : List ((Int × Int) × (Int × Int)) :=
  match ps with
  | [] => []
  | p :: _ => ps.zip (ps.tail ++ [p])

/-- Point-in-polygon by the even-odd rule: the point is inside when an
odd number of polygon edges cross the horizontal ray from it. -/
def insidePoly (ps : List (Int × Int)) (x y : Int) : Bool :=
  (polyEdges ps).countP (fun e => edgeCrosses e.1 e.2 x y) % 2 == 1

/-- Models PIL `ImageDraw.polygon(coords, fill)`: pixels inside the
polygon (even-odd rule) take the fill color. -/
def polygon (im : Img) (coords : List (Int × Int)) (fill : Color) : Img :=
  { im with
    px := fun x y =>
      if insidePoly coords (Int.ofNat x) (Int.ofNat y) then fill
      else im.px x y }

end ImageDraw

/-- Insert an element into a list sorted by `le`. -/
def insertSorted (le : α → α → Bool) (a : α) : List α → List α
  | [] => [a]
  | b :: t => if le a b then a :: b :: t else b :: insertSorted le a t

/-- Insertion sort by `le`. -/
def sortList (le : α → α → Bool) : List α → List α
  | [] => []
  | a :: t => insertSorted le a (sortList le t)

/-- Models Python `sorted(set(sizes))` on a list of (width, height)
pairs: duplicates removed, then sorted lexicographically. -/
def pySortedSet (l : List (Nat × Nat)) : List (Nat × Nat) :=
  sortList (fun a b => a.1 < b.1 || (a.1 == b.1 && a.2 ≤ b.2)) l.eraseDups

/-- Models Pillow's ICO encoder size selection (`IcoImagePlugin._save`):
the embedded sizes are `sorted(set(sizes))` with any size skipped whose
width or height exceeds the source image or exceeds 256 — per the
Pillow documentation, any sizes bigger than the original size or 256
are ignored. -/
def icoEmbeddedSizes (im : Img) (sizes : List (Nat × Nat)) : List (Nat × Nat) :=
  (pySortedSet sizes).filter fun s =>
    !(s.1 > im.width || s.2 > im.height || s.1 > 256 || s.2 > 256)

/-- Models the ICO encoder's downscaling of the source canvas to one
embedded size (nearest-neighbor stand-in; each embedded frame is a
function of the single source image and the target size only). -/
def resizeTo (im : Img) (s : Nat × Nat) : Img :=
  { width := s.1, height := s.2, mode := im.mode,
    px := fun x y => im.px (x * im.width / s.1) (y * im.height / s.2) }

/-- The frames embedded in the ICO container: one per accepted size,
each downscaled by the encoder from the same single source canvas. -/
def icoFrames (im : Img) (sizes : List (Nat × Nat)) :
    List ((Nat × Nat) × Img) :=
  (icoEmbeddedSizes im sizes).map fun s => (s, resizeTo im s)

/-- The content written to a file by `Image.save`, keyed by format. -/
inductive FileData where
  | icoFile (frames : List ((Nat × Nat) × Img))
  | pngFile (im : Img)
  | bmpFile (im : Img)

/-- The file system: a map from path to file content. -/
abbrev FS := String → Option FileData

/-- An observable side effect of a script run. -/
inductive Event where
  | saveEv (path : String)
  | printEv (msg : String)
deriving DecidableEq, BEq

/-- The state a script run threads: the file system plus the ordered
log of side effects performed so far. -/
structure World where
  fs : FS
  events : List Event

/-- Models `image.save(path)`: overwrite the file at `path` with the
encoded data (Pillow `save` replaces any existing file without error)
and log the write. -/
def World.save (w : World) (p : String) (d : FileData) : World :=
  { fs := fun q => if q = p then some d else w.fs q,
    events := w.events ++ [Event.saveEv p] }

/-- Models `print(msg)`: log the console output. -/
def World.printLine (w : World) (m : String) : World :=
  { w with events := w.events ++ [Event.printEv m] }

/-- The file paths a list of events saved to, in order. -/
def savedPaths (es : List Event) : List String :=
  es.filterMap fun e =>
    match e with
    | Event.saveEv p => some p
    | Event.printEv _ => none

/-- Whether an event is a console print. -/
def isPrint : Event → Bool
  | Event.printEv _ => true
  | Event.saveEv _ => false

/-- Whether an event is a file write. -/
def isSave : Event → Bool
  | Event.saveEv _ => true
  | Event.printEv _ => false

/-- The near-black glyph fill used with an alpha channel (the source's
`(24, 24, 27, 255)`, the Zinc-900 color, fully opaque). -/
def zinc900Rgba : Color := [24, 24, 27, 255]

/-- The near-black fill used on opaque-RGB canvases (`(24, 24, 27)`). -/
def zinc900Rgb : Color := [24, 24, 27]

/-- The opaque-white background with an alpha channel
(`(255, 255, 255, 255)`). -/
def whiteRgba : Color := [255, 255, 255, 255]

/-- The white background on opaque-RGB canvases (`(255, 255, 255)`). -/
def whiteRgb : Color := [255, 255, 255]

namespace GenerateIcon

/-- `size = 512` in `generate_icon.py`. -/
def size : Nat := 512

/-- `image = Image.new('RGBA', (size, size), (255, 255, 255, 255))`. -/
def image0 : Img := Image.new ("RGBA") (size, size) whiteRgba

/-- `draw.rounded_rectangle([0, 0, size, size], radius=128,
fill=(255, 255, 255, 255))`. -/
def image1 : Img := ImageDraw.rounded_rectangle image0 0 0 size size 128 whiteRgba

/-- The icon's glyph vertex list `path_coords` from `generate_icon.py`
(the SVG path M160 352 V160 H208 L304 304 V160 H352 V352 H304
L208 208 V352 H160 Z). -/
def path_coords : List (Int × Int) :=
  [(160, 352), (160, 160), (208, 160), (304, 304),
   (304, 160), (352, 160), (352, 352), (304, 352),
   (208, 208), (208, 352), (160, 352)]

/-- `draw.polygon(path_coords, fill=(24, 24, 27, 255))`. -/
def image2 : Img := ImageDraw.polygon image1 path_coords zinc900Rgba

/-- `icon_sizes` from `generate_icon.py`: the sizes requested of the
ICO encoder. -/
def icon_sizes : List (Nat × Nat) :=
  [(16, 16), (32, 32), (48, 48), (64, 64), (128, 128), (256, 256), (512, 512)]

/-- The hardcoded output path of `icon.ico`. -/
def icoPath : String := "e:/chatit.cloud/2030/NeuroOS/build/icon.ico"

/-- The hardcoded output path of `icon.png`. -/
def pngPath : String := "e:/chatit.cloud/2030/NeuroOS/build/icon.png"

/-- The success message printed by `generate_icon.py`. -/
def iconMsg : String := "Icon generated successfully: icon.ico and icon.png"

/-- The `create_neuro_icon()` procedure: build the 512×512 canvas,
draw the rounded rectangle and the glyph, save the ICO (the encoder
embedding the accepted sizes, each downscaled from the one canvas),
save the PNG, and print the success message. -/
def create_neuro_icon (w : World) : World :=
  let image := image2
  let w1 := w.save icoPath (FileData.icoFile (icoFrames image icon_sizes))
  let w2 := w1.save pngPath (FileData.pngFile image)
  w2.printLine iconMsg

end GenerateIcon

namespace GenerateInstallerAssets

/-- `sidebar_w = 164` in `generate_installer_assets.py`. -/
def sidebar_w : Nat := 164

/-- `sidebar_h = 314`. -/
def sidebar_h : Nat := 314

/-- `sidebar = Image.new('RGB', (sidebar_w, sidebar_h), (255, 255, 255))`. -/
def sidebar0 : Img := Image.new ("RGB") (sidebar_w, sidebar_h) whiteRgb

/-- `draw.rectangle([0, sidebar_h-5, sidebar_w, sidebar_h],
fill=(24, 24, 27))`: the bottom border bar. -/
def sidebar1 : Img :=
  ImageDraw.rectangle sidebar0 0 (sidebar_h - 5) sidebar_w sidebar_h zinc900Rgb

/-- The sidebar's glyph vertex list `path_coords` from
`generate_installer_assets.py`. -/
def path_coords : List (Int × Int) :=
  [(60, 150), (60, 100), (80, 100), (104, 130), (104, 100),
   (114, 100), (114, 150), (104, 150), (80, 120), (80, 150)]

/-- `draw.polygon(path_coords, fill=(24, 24, 27))`. -/
def sidebar2 : Img := ImageDraw.polygon sidebar1 path_coords zinc900Rgb

/-- `header_w = 150`. -/
def header_w : Nat := 150

/-- `header_h = 57`. -/
def header_h : Nat := 57

/-- `header = Image.new('RGB', (header_w, header_h), (255, 255, 255))`. -/
def header0 : Img := Image.new ("RGB") (header_w, header_h) whiteRgb

/-- The header's glyph vertex list `n_small` from
`generate_installer_assets.py`. -/
def n_small : List (Int × Int) :=
  [(120, 40), (120, 15), (125, 15), (135, 30), (135, 15),
   (140, 15), (140, 40), (135, 40), (125, 25), (125, 40)]

/-- `draw.polygon(n_small, fill=(24, 24, 27))`. -/
def header1 : Img := ImageDraw.polygon header0 n_small zinc900Rgb

/-- The hardcoded output path of `installerSidebar.bmp`. -/
def sidebarPath : String := "e:/chatit.cloud/2030/NeuroOS/build/installerSidebar.bmp"

/-- The hardcoded output path of `installerHeader.bmp`. -/
def headerPath : String := "e:/chatit.cloud/2030/NeuroOS/build/installerHeader.bmp"

/-- The combined success message printed by
`generate_installer_assets.py`. -/
def installerMsg : String :=
  "Installer assets generated: installerSidebar.bmp and installerHeader.bmp"

/-- The `create_installer_assets()` procedure: build and save the
sidebar bitmap, then build and save the header bitmap, then print the
one combined success message. -/
def create_installer_assets (w : World) : World :=
  let w1 := w.save sidebarPath (FileData.bmpFile sidebar2)
  let w2 := w1.save headerPath (FileData.bmpFile header1)
  w2.printLine installerMsg

end GenerateInstallerAssets

/-- The kind of a Pillow draw/allocation call made by the scripts. -/
inductive DrawKind where
  | canvasNew
  | roundedRect
  | rect
  | poly
deriving DecidableEq

/-- One draw or canvas-allocation call: its kind, whether it is a
glyph-polygon fill, and the fill color passed. -/
structure DrawCall where
  kind : DrawKind
  fill : Color
deriving DecidableEq

/-- Every canvas allocation and fill draw call made by the two
scripts, in source order: the icon's canvas, rounded rectangle and
glyph polygon; the sidebar's canvas, bottom-border rectangle and glyph
polygon; the header's canvas and glyph polygon. -/
def allDrawCalls : List DrawCall :=
  [⟨DrawKind.canvasNew, whiteRgba⟩,
   ⟨DrawKind.roundedRect, whiteRgba⟩,
   ⟨DrawKind.poly, zinc900Rgba⟩,
   ⟨DrawKind.canvasNew, whiteRgb⟩,
   ⟨DrawKind.rect, zinc900Rgb⟩,
   ⟨DrawKind.poly, zinc900Rgb⟩,
   ⟨DrawKind.canvasNew, whiteRgb⟩,
   ⟨DrawKind.poly, zinc900Rgb⟩]

/-- The empty file system: no path holds a file. -/
def emptyFS : FS := fun _ => none

/-- A starting state with an empty file system and no logged events. -/
def emptyWorld : World := { fs := emptyFS, events := [] }

/-- The file-system state after a run of `create_neuro_icon`: the ICO
and PNG paths hold the freshly encoded data, every other path is
untouched. -/
theorem iconRun_fs (w : World) (q : String) :
    (GenerateIcon.create_neuro_icon w).fs q =
      if q = GenerateIcon.pngPath then some (FileData.pngFile GenerateIcon.image2)
      else if q = GenerateIcon.icoPath then
        some (FileData.icoFile (icoFrames GenerateIcon.image2 GenerateIcon.icon_sizes))
      else w.fs q :=
  rfl

/-- The file-system state after a run of `create_installer_assets`. -/
theorem installerRun_fs (w : World) (q : String) :
    (GenerateInstallerAssets.create_installer_assets w).fs q =
      if q = GenerateInstallerAssets.headerPath then
        some (FileData.bmpFile GenerateInstallerAssets.header1)
      else if q = GenerateInstallerAssets.sidebarPath then
        some (FileData.bmpFile GenerateInstallerAssets.sidebar2)
      else w.fs q :=
  rfl

/-- A run of `create_neuro_icon` from an empty event log emits exactly
the two file writes followed by the success print, in source order. -/
theorem iconRun_events (fs : FS) :
    (GenerateIcon.create_neuro_icon ⟨fs, []⟩).events =
      [Event.saveEv GenerateIcon.icoPath, Event.saveEv GenerateIcon.pngPath,
       Event.printEv GenerateIcon.iconMsg] :=
  rfl

/-- A run of `create_installer_assets` from an empty event log emits
the sidebar write, then the header write, then the success print. -/
theorem installerRun_events (fs : FS) :
    (GenerateInstallerAssets.create_installer_assets ⟨fs, []⟩).events =
      [Event.saveEv GenerateInstallerAssets.sidebarPath,
       Event.saveEv GenerateInstallerAssets.headerPath,
       Event.printEv GenerateInstallerAssets.installerMsg] :=
  rfl

/-- The value of `create_neuro_icon`'s run at the ICO path. -/
theorem iconRun_fs_ico (w : World) :
    (GenerateIcon.create_neuro_icon w).fs GenerateIcon.icoPath =
      some (FileData.icoFile (icoFrames GenerateIcon.image2 GenerateIcon.icon_sizes)) := by
  rw [iconRun_fs, if_neg (by decide), if_pos rfl]

/-- The value of `create_neuro_icon`'s run at the PNG path. -/
theorem iconRun_fs_png (w : World) :
    (GenerateIcon.create_neuro_icon w).fs GenerateIcon.pngPath =
      some (FileData.pngFile GenerateIcon.image2) := by
  rw [iconRun_fs, if_pos rfl]

/-- The value of `create_installer_assets`'s run at the sidebar path. -/
theorem installerRun_fs_sidebar (w : World) :
    (GenerateInstallerAssets.create_installer_assets w).fs
        GenerateInstallerAssets.sidebarPath =
      some (FileData.bmpFile GenerateInstallerAssets.sidebar2) := by
  rw [installerRun_fs, if_neg (by decide), if_pos rfl]

/-- The value of `create_installer_assets`'s run at the header path. -/
theorem installerRun_fs_header (w : World) :
    (GenerateInstallerAssets.create_installer_assets w).fs
        GenerateInstallerAssets.headerPath =
      some (FileData.bmpFile GenerateInstallerAssets.header1) := by
  rw [installerRun_fs, if_pos rfl]

/-- C1, counterexample: the saved icon container does not embed 7
images. The script requests 7 sizes including 512×512, but the ICO
encoder skips any size exceeding 256, so only 6 sizes are embedded and
512×512 is not among them. -/
theorem C1_counterexample :
    (icoEmbeddedSizes GenerateIcon.image2 GenerateIcon.icon_sizes).length = 6 ∧
    (512, 512) ∉ icoEmbeddedSizes GenerateIcon.image2 GenerateIcon.icon_sizes := by
  decide

/-- C1, amended: the saved icon container embeds exactly 6 images, of
pixel dimensions exactly 16, 32, 48, 64, 128 and 256, each square, and
each frame is derived by the encoder from the same single 512×512
source canvas; the requested 512×512 size is ignored by the encoder. -/
theorem C1_ico_embedded_images :
    icoEmbeddedSizes GenerateIcon.image2 GenerateIcon.icon_sizes =
      [(16, 16), (32, 32), (48, 48), (64, 64), (128, 128), (256, 256)] ∧
    ((icoEmbeddedSizes GenerateIcon.image2 GenerateIcon.icon_sizes).all
      fun s => s.1 == s.2) = true ∧
    icoFrames GenerateIcon.image2 GenerateIcon.icon_sizes =
      (icoEmbeddedSizes GenerateIcon.image2 GenerateIcon.icon_sizes).map
        (fun s => (s, resizeTo GenerateIcon.image2 s)) ∧
    GenerateIcon.image2.width = 512 ∧
    GenerateIcon.image2.height = 512 ∧
    (512, 512) ∈ GenerateIcon.icon_sizes ∧
    (512, 512) ∉ icoEmbeddedSizes GenerateIcon.image2 GenerateIcon.icon_sizes :=
  ⟨by decide, by decide, rfl, rfl, rfl, by decide, by decide⟩

/-- C2, counterexample: the icon's glyph polygon is not given as a
list of exactly 10 coordinate pairs — its `path_coords` holds 11
pairs. -/
theorem C2_counterexample : GenerateIcon.path_coords.length ≠ 10 := by
  decide

/-- C2, amended: the sidebar's and the header's glyph polygons are
each an ordered list of exactly 10 integer coordinate pairs; the
icon's glyph polygon is given as 11 pairs, the last pair repeating the
first, so it has exactly 10 distinct vertices. -/
theorem C2_glyph_vertex_counts :
    GenerateInstallerAssets.path_coords.length = 10 ∧
    GenerateInstallerAssets.n_small.length = 10 ∧
    GenerateIcon.path_coords.length = 11 ∧
    GenerateIcon.path_coords.getLast? = GenerateIcon.path_coords.head? ∧
    GenerateIcon.path_coords.eraseDups.length = 10 := by
  decide

/-- C7: the flat PNG written by the icon generator is the 512×512
RGBA canvas — exactly 512×512 pixels with an alpha channel. -/
theorem C7_png_size_and_mode :
    GenerateIcon.image2.width = 512 ∧
    GenerateIcon.image2.height = 512 ∧
    GenerateIcon.image2.mode = "RGBA" ∧
    ∀ w : World,
      (GenerateIcon.create_neuro_icon w).fs GenerateIcon.pngPath =
        some (FileData.pngFile GenerateIcon.image2) :=
  ⟨rfl, rfl, rfl, fun w => iconRun_fs_png w⟩

/-- C9: the two generators write disjoint files — the four hardcoded
output paths are pairwise distinct, the icon run writes exactly the
ICO and PNG paths, the installer run writes exactly the sidebar and
header paths, and no path of one generator is a path of the other. -/
theorem C9_disjoint_output_paths :
    ∀ fs : FS,
      savedPaths (GenerateIcon.create_neuro_icon ⟨fs, []⟩).events =
        [GenerateIcon.icoPath, GenerateIcon.pngPath] ∧
      savedPaths (GenerateInstallerAssets.create_installer_assets ⟨fs, []⟩).events =
        [GenerateInstallerAssets.sidebarPath, GenerateInstallerAssets.headerPath] ∧
      List.Nodup [GenerateIcon.icoPath, GenerateIcon.pngPath,
        GenerateInstallerAssets.sidebarPath, GenerateInstallerAssets.headerPath] ∧
      ([GenerateIcon.icoPath, GenerateIcon.pngPath].all fun p =>
        !([GenerateInstallerAssets.sidebarPath,
           GenerateInstallerAssets.headerPath].contains p)) = true :=
  fun fs => ⟨rfl, rfl, by decide, by decide⟩

/-- C10: every vertex of every glyph polygon lies strictly within the
bounds of the canvas it is drawn on — the icon's inside 512×512, the
sidebar's inside 164×314, the header's inside 150×57. -/
theorem C10_glyph_vertices_in_bounds :
    (GenerateIcon.path_coords.all fun p =>
      decide (0 ≤ p.1) && decide (p.1 < (GenerateIcon.size : Int)) &&
      decide (0 ≤ p.2) && decide (p.2 < (GenerateIcon.size : Int))) = true ∧
    (GenerateInstallerAssets.path_coords.all fun p =>
      decide (0 ≤ p.1) &&
      decide (p.1 < (GenerateInstallerAssets.sidebar_w : Int)) &&
      decide (0 ≤ p.2) &&
      decide (p.2 < (GenerateInstallerAssets.sidebar_h : Int))) = true ∧
    (GenerateInstallerAssets.n_small.all fun p =>
      decide (0 ≤ p.1) &&
      decide (p.1 < (GenerateInstallerAssets.header_w : Int)) &&
      decide (0 ≤ p.2) &&
      decide (p.2 < (GenerateInstallerAssets.header_h : Int))) = true := by
  decide

/-- C3: the sidebar is a 164×314 canvas whose bottom border is a solid
near-black band exactly 5 pixels tall — in the final sidebar image
every pixel of the bottommost 5 rows (309 to 313) across the full
164-pixel width equals (24, 24, 27), and the border rectangle leaves
every row above row 309 untouched. -/
theorem C3_sidebar_bottom_band :
    GenerateInstallerAssets.sidebar2.width = 164 ∧
    GenerateInstallerAssets.sidebar2.height = 314 ∧
    (∀ x y : Nat, x < 164 → 309 ≤ y → y < 314 →
      GenerateInstallerAssets.sidebar2.px x y = zinc900Rgb) ∧
    (∀ x y : Nat, y < 309 →
      GenerateInstallerAssets.sidebar1.px x y =
        GenerateInstallerAssets.sidebar0.px x y) := by
  refine ⟨rfl, rfl, ?_, ?_⟩
  · intro x y hx hy1 hy2
    show (if ImageDraw.insidePoly GenerateInstallerAssets.path_coords
            (Int.ofNat x) (Int.ofNat y) = true then zinc900Rgb
          else GenerateInstallerAssets.sidebar1.px x y) = zinc900Rgb
    split
    · rfl
    · show (if 0 ≤ x ∧ x ≤ GenerateInstallerAssets.sidebar_w ∧
              GenerateInstallerAssets.sidebar_h - 5 ≤ y ∧
              y ≤ GenerateInstallerAssets.sidebar_h
            then zinc900Rgb else GenerateInstallerAssets.sidebar0.px x y) =
          zinc900Rgb
      rw [if_pos]
      refine ⟨Nat.zero_le x, ?_, ?_, ?_⟩ <;>
        simp only [GenerateInstallerAssets.sidebar_w,
          GenerateInstallerAssets.sidebar_h] <;> omega
  · intro x y hy
    show (if 0 ≤ x ∧ x ≤ GenerateInstallerAssets.sidebar_w ∧
            GenerateInstallerAssets.sidebar_h - 5 ≤ y ∧
            y ≤ GenerateInstallerAssets.sidebar_h
          then zinc900Rgb else GenerateInstallerAssets.sidebar0.px x y) =
        GenerateInstallerAssets.sidebar0.px x y
    rw [if_neg]
    intro h
    have h309 : GenerateInstallerAssets.sidebar_h - 5 ≤ y := h.2.2.1
    simp only [GenerateInstallerAssets.sidebar_h] at h309
    omega

/-- C3, witness: the band and untouched-row facts at the concrete
pixels (0, 309), (163, 313) and (0, 308). -/
theorem C3_sidebar_bottom_band_witness :
    GenerateInstallerAssets.sidebar2.px 0 309 = zinc900Rgb ∧
    GenerateInstallerAssets.sidebar2.px 163 313 = zinc900Rgb ∧
    GenerateInstallerAssets.sidebar1.px 0 308 =
      GenerateInstallerAssets.sidebar0.px 0 308 :=
  ⟨C3_sidebar_bottom_band.2.2.1 0 309 (by decide) (by decide) (by decide),
   C3_sidebar_bottom_band.2.2.1 163 313 (by decide) (by decide) (by decide),
   C3_sidebar_bottom_band.2.2.2 0 308 (by decide)⟩

/-- C4: drawing the full-canvas rounded rectangle (radius 128, filled
opaque white) on the fresh opaque-white 512×512 canvas changes no
pixel — the canvas after the draw equals the canvas before it, and so
the final icon canvas equals what the procedure without that step
would produce. -/
theorem C4_rounded_rectangle_noop :
    GenerateIcon.image1 = GenerateIcon.image0 ∧
    GenerateIcon.image2 =
      ImageDraw.polygon GenerateIcon.image0 GenerateIcon.path_coords zinc900Rgba := by
  have h : GenerateIcon.image1 = GenerateIcon.image0 := by
    apply Img.ext
    · rfl
    · rfl
    · rfl
    · funext x y
      show (if ImageDraw.inRoundedRect 0 0 (Int.ofNat GenerateIcon.size)
              (Int.ofNat GenerateIcon.size) 128 (Int.ofNat x) (Int.ofNat y)
            then whiteRgba else GenerateIcon.image0.px x y) =
          GenerateIcon.image0.px x y
      split
      · rfl
      · rfl
  exact ⟨h, by rw [show GenerateIcon.image2 =
    ImageDraw.polygon GenerateIcon.image1 GenerateIcon.path_coords zinc900Rgba
    from rfl, h]⟩

/-- C5: every glyph-polygon fill in the two scripts uses the constant
near-black (24, 24, 27) — fully opaque, (24, 24, 27, 255), where the
canvas has an alpha channel — every canvas is allocated with a
constant opaque-white background, and no draw or allocation call uses
any fill color other than these near-black and white constants. -/
theorem C5_fill_color_constancy :
    ((allDrawCalls.filter fun c => c.kind == DrawKind.poly).all fun c =>
      c.fill == zinc900Rgba || c.fill == zinc900Rgb) = true ∧
    ((allDrawCalls.filter fun c => c.kind == DrawKind.poly).all fun c =>
      c.fill.length != 4 || c.fill == zinc900Rgba) = true ∧
    ((allDrawCalls.filter fun c => c.kind == DrawKind.canvasNew).all fun c =>
      c.fill == whiteRgba || c.fill == whiteRgb) = true ∧
    (allDrawCalls.all fun c =>
      c.fill == zinc900Rgba || c.fill == zinc900Rgb ||
      c.fill == whiteRgba || c.fill == whiteRgb) = true := by
  decide

/-- C6: each generator is deterministic and idempotent — runs from any
two starting states write identical content at every output path, and
a second run on top of a first leaves the file system exactly as the
first run did (each save overwrites without error). -/
theorem C6_deterministic_idempotent :
    ∀ w v : World,
      (GenerateIcon.create_neuro_icon w).fs GenerateIcon.icoPath =
        (GenerateIcon.create_neuro_icon v).fs GenerateIcon.icoPath ∧
      (GenerateIcon.create_neuro_icon w).fs GenerateIcon.pngPath =
        (GenerateIcon.create_neuro_icon v).fs GenerateIcon.pngPath ∧
      (GenerateInstallerAssets.create_installer_assets w).fs
          GenerateInstallerAssets.sidebarPath =
        (GenerateInstallerAssets.create_installer_assets v).fs
          GenerateInstallerAssets.sidebarPath ∧
      (GenerateInstallerAssets.create_installer_assets w).fs
          GenerateInstallerAssets.headerPath =
        (GenerateInstallerAssets.create_installer_assets v).fs
          GenerateInstallerAssets.headerPath ∧
      (GenerateIcon.create_neuro_icon (GenerateIcon.create_neuro_icon w)).fs =
        (GenerateIcon.create_neuro_icon w).fs ∧
      (GenerateInstallerAssets.create_installer_assets
          (GenerateInstallerAssets.create_installer_assets w)).fs =
        (GenerateInstallerAssets.create_installer_assets w).fs := by
  intro w v
  refine ⟨?_, ?_, ?_, ?_, ?_, ?_⟩
  · rw [iconRun_fs_ico, iconRun_fs_ico]
  · rw [iconRun_fs_png, iconRun_fs_png]
  · rw [installerRun_fs_sidebar, installerRun_fs_sidebar]
  · rw [installerRun_fs_header, installerRun_fs_header]
  · funext q
    rw [iconRun_fs, iconRun_fs]
    split_ifs <;> rfl
  · funext q
    rw [installerRun_fs, installerRun_fs]
    split_ifs <;> rfl

/-- C8: a run of the installer generator prints exactly one success
message; both file writes precede the first (and only) print; the
sidebar write is the first event and the header write the second, so
the sidebar write precedes the header write and the message is never
emitted before either write. -/
theorem C8_print_after_both_writes :
    ∀ fs : FS,
      (GenerateInstallerAssets.create_installer_assets ⟨fs, []⟩).events.countP
          isPrint = 1 ∧
      ((GenerateInstallerAssets.create_installer_assets
          ⟨fs, []⟩).events.takeWhile fun e => !isPrint e).countP isSave = 2 ∧
      (GenerateInstallerAssets.create_installer_assets ⟨fs, []⟩).events.findIdx
          (fun e => e == Event.saveEv GenerateInstallerAssets.sidebarPath) = 0 ∧
      (GenerateInstallerAssets.create_installer_assets ⟨fs, []⟩).events.findIdx
          (fun e => e == Event.saveEv GenerateInstallerAssets.headerPath) = 1 ∧
      (GenerateInstallerAssets.create_installer_assets ⟨fs, []⟩).events.findIdx
          isPrint = 2 ∧
      (GenerateInstallerAssets.create_installer_assets ⟨fs, []⟩).events.length
          = 3 := by
  intro fs
  rw [installerRun_events fs]
  refine ⟨by decide, by decide, by decide, by decide, by decide, by decide⟩

/-- C7, witness: the PNG write evaluated on the concrete empty
starting world. -/
theorem C7_png_size_and_mode_witness :
    (GenerateIcon.create_neuro_icon emptyWorld).fs GenerateIcon.pngPath =
      some (FileData.pngFile GenerateIcon.image2) :=
  C7_png_size_and_mode.2.2.2 emptyWorld

/-- C6, witness: determinism and idempotence instantiated at the
concrete empty starting world. -/
theorem C6_deterministic_idempotent_witness :
    (GenerateIcon.create_neuro_icon emptyWorld).fs GenerateIcon.icoPath =
      (GenerateIcon.create_neuro_icon emptyWorld).fs GenerateIcon.icoPath ∧
    (GenerateIcon.create_neuro_icon
        (GenerateIcon.create_neuro_icon emptyWorld)).fs =
      (GenerateIcon.create_neuro_icon emptyWorld).fs :=
  ⟨(C6_deterministic_idempotent emptyWorld emptyWorld).1,
   (C6_deterministic_idempotent emptyWorld emptyWorld).2.2.2.2.1⟩

/-- C8, witness: the event-log facts instantiated at the concrete
empty file system. -/
theorem C8_print_after_both_writes_witness :
    (GenerateInstallerAssets.create_installer_assets
        ⟨emptyFS, []⟩).events.countP isPrint = 1 ∧
    (GenerateInstallerAssets.create_installer_assets
        ⟨emptyFS, []⟩).events.findIdx isPrint = 2 :=
  ⟨(C8_print_after_both_writes emptyFS).1,
   (C8_print_after_both_writes emptyFS).2.2.2.2.1⟩

/-- C9, witness: the saved-path lists instantiated at the concrete
empty file system. -/
theorem C9_disjoint_output_paths_witness :
    savedPaths (GenerateIcon.create_neuro_icon ⟨emptyFS, []⟩).events =
      [GenerateIcon.icoPath, GenerateIcon.pngPath] ∧
    savedPaths (GenerateInstallerAssets.create_installer_assets
        ⟨emptyFS, []⟩).events =
      [GenerateInstallerAssets.sidebarPath,
       GenerateInstallerAssets.headerPath] :=
  ⟨(C9_disjoint_output_paths emptyFS).1, (C9_disjoint_output_paths emptyFS).2.1⟩

end NeuroOS
